import Mathlib

/-!
Shallow embedding of the summarization pipeline of `analyze_health.py`
(Garmin health analyzer) together with theorems checking the
natural-language specification against it.

Modelling conventions:
* pandas timestamps are modelled as `Int` seconds since the epoch; the
  calendar date of a timestamp is its day index `t / 86400` (integer
  division on `Int` is Euclidean division, which is floor division for a
  positive divisor, matching `Timestamp.normalize` / `.date()`).
* Python floats produced by divisions and means are modelled as exact
  fractions (`Frac`, an unreduced `num/den` pair of integers) so that all
  pipeline computations reduce inside the kernel.  Decimal formatting
  (`"%.0f"`, `"%.1f"`) is modelled as round-half-to-even on the exact
  fraction; the binary-float rounding of CPython can differ from the
  exact-value rounding only on ties that are not exactly representable,
  which no claim exercises.
* A pandas `DataFrame` is modelled as a list of rows plus one boolean per
  optional column recording whether that column is present in the table
  (pandas columns are table-wide, so a fallback such as
  `row.get('movingDuration', ...)` keys on column presence).  Columns the
  specification's data model declares mandatory (`time`, `ActivityID`,
  `activityType`, `Duration`) are plain fields.  A missing-cell value
  (`NaN`) is modelled as `none` where the code is sensitive to it
  (`dropna`, `pd.isna`, truthiness tests).
* Code that can raise (`KeyError` from a missing column) is modelled in
  `Except String`; pure stretches stay pure.
* `DataFrame.sort_values('time')` is modelled as a stable insertion sort
  by timestamp.
-/

/-! ### Exact fractions standing in for Python floats -/

/-- An unreduced fraction `num / den`.  Every fraction built by the
pipeline has a positive denominator. -/
structure Frac where
  num : Int
  den : Int
deriving DecidableEq

/-- The rational value of a fraction (used only in specification
statements, never in executable pipeline code). -/
def Frac.val (f : Frac) : ℚ := (f.num : ℚ) / (f.den : ℚ)

/-- An integer as a fraction. -/
def Frac.ofInt (n : Int) : Frac := ⟨n, 1⟩

/-- Divide a fraction by a (positive) integer. -/
def Frac.divInt (f : Frac) (k : Int) : Frac := ⟨f.num, f.den * k⟩

/-- Multiply a fraction by an integer. -/
def Frac.mulInt (f : Frac) (k : Int) : Frac := ⟨f.num * k, f.den⟩

/-- `k ≤ f` for a fraction with positive denominator. -/
def Frac.geInt (f : Frac) (k : Int) : Bool := k * f.den ≤ f.num

/-- Truncation toward zero, as Python `int(...)` (denominator positive). -/
def Frac.trunc (f : Frac) : Int :=
  if 0 ≤ f.num then f.num / f.den else -((-f.num) / f.den)

/-- Round to the nearest integer, ties to even, as CPython float
formatting with `"%.0f"` does on the exact value (denominator positive). -/
def Frac.roundHalfEven (f : Frac) : Int :=
  let q := f.num / f.den
  let r := f.num % f.den
  if 2 * r < f.den then q
  else if f.den < 2 * r then q + 1
  else if q % 2 = 0 then q else q + 1

/-- Python `f"{x:.0f}"` on the exact value of `f`. -/
def fmt0 (f : Frac) : String := toString f.roundHalfEven

/-- Python `f"{x:.1f}"` on the exact value of `f`. -/
def fmt1 (f : Frac) : String :=
  let n := Frac.roundHalfEven ⟨f.num * 10, f.den⟩
  let sign := if n < 0 then "-" else ""
  let m := n.natAbs
  sign ++ toString (m / 10) ++ "." ++ toString (m % 10)

/-- Mean of a list of integers as an exact fraction (callers always pass a
non-empty list, mirroring the pandas guards). -/
def fracMean (l : List Int) : Frac := ⟨l.sum, (l.length : Int)⟩

/-! ### String helpers mirroring the Python string methods used -/

/-- Python `s.replace(' ', '')` (used for markdown section titles,
`analyze_health.py` line 85). -/
def stripSpaces (s : String) : String :=
  String.mk (s.toList.filter (fun c => !(c == ' ')))

/-- The key under which `parse_markdown_tables` stores a section titled
`title`: `title.replace(' ', '')` (`analyze_health.py` line 85). -/
def datasetKey (title : String) : String := stripSpaces title

/-- Python `s.replace('_', ' ')`. -/
def underscoreToSpace (s : String) : String :=
  String.mk (s.toList.map (fun c => if c == '_' then ' ' else c))

/-- One step of Python `str.title()`: the boolean carries whether the
previous character was alphabetic. -/
def titleCaseAux : Bool → List Char → List Char
  | _, [] => []
  | prevAlpha, c :: cs =>
    let c' := if prevAlpha then c.toLower else c.toUpper
    c' :: titleCaseAux c.isAlpha cs

/-- Python `str.title()`. -/
def titleCase (s : String) : String := String.mk (titleCaseAux false s.toList)

/-- Activity-type humanization (`analyze_health.py` lines 229-231):
underscores to spaces, title case, then the special case
`"Indoor Climbing" → "Climbing"`. -/
def humanizeType (t : String) : String :=
  let a := titleCase (underscoreToSpace t)
  if a == "Indoor Climbing" then "Climbing" else a

/-- Whether `p` occurs as a contiguous substring of `s` (used only in
specification statements about the assembled prompt). -/
def charsContain : List Char → List Char → Bool
  | _, [] => true
  | [], _ :: _ => false
  | c :: cs, p => (p.isPrefixOf (c :: cs)) || charsContain cs p

def containsSubstr (s p : String) : Bool := charsContain s.toList p.toList

/-! ### Calendar rendering (strftime `%a`, `%b %d`, `%A, %B %d, %Y`) -/

/-- Gregorian calendar date (year, month, day-of-month) of a day index
(days since 1970-01-01), by the standard civil-from-days algorithm. -/
def civilFromDays (z : Int) : Int × Nat × Nat :=
  let zz := z + 719468
  let era : Int := zz / 146097
  let doe : Nat := (zz - era * 146097).toNat
  let yoe : Nat := (doe - doe / 1460 + doe / 36524 - doe / 146096) / 365
  let y : Int := (yoe : Int) + era * 400
  let doy : Nat := doe - (365 * yoe + yoe / 4 - yoe / 100)
  let mp : Nat := (5 * doy + 2) / 153
  let d : Nat := doy - (153 * mp + 2) / 5 + 1
  let m : Nat := if mp < 10 then mp + 3 else mp - 9
  (if m ≤ 2 then y + 1 else y, m, d)

def monthAbbrev (m : Nat) : String :=
  ["Jan", "Feb", "Mar", "Apr", "May", "Jun",
   "Jul", "Aug", "Sep", "Oct", "Nov", "Dec"].getD (m - 1) ""

def monthFull (m : Nat) : String :=
  ["January", "February", "March", "April", "May", "June", "July",
   "August", "September", "October", "November", "December"].getD (m - 1) ""

/-- Day 0 (1970-01-01) was a Thursday. -/
def weekdayAbbrev (d : Int) : String :=
  ["Thu", "Fri", "Sat", "Sun", "Mon", "Tue", "Wed"].getD (d % 7).toNat ""

def weekdayFull (d : Int) : String :=
  ["Thursday", "Friday", "Saturday", "Sunday", "Monday", "Tuesday",
   "Wednesday"].getD (d % 7).toNat ""

/-- Zero-padded two-digit rendering, as strftime `%d`. -/
def pad2 (n : Nat) : String := if n < 10 then "0" ++ toString n else toString n

/-- strftime `%b %d` of a day index. -/
def monthDayStr (d : Int) : String :=
  let c := civilFromDays d
  monthAbbrev c.2.1 ++ " " ++ pad2 c.2.2

/-- strftime `%A, %B %d, %Y` of a day index. -/
def fullDateStr (d : Int) : String :=
  let c := civilFromDays d
  weekdayFull d ++ ", " ++ monthFull c.2.1 ++ " " ++ pad2 c.2.2 ++ ", " ++
    toString c.1

/-! ### Timestamps -/

def secPerDay : Int := 86400

/-- The calendar date of a timestamp, as a day index (`Timestamp.date()`). -/
def dayOf (t : Int) : Int := t / secPerDay

/-- `Timestamp.normalize()`: midnight of the timestamp's day. -/
def normalizeTs (t : Int) : Int := dayOf t * secPerDay

/-- `today - pd.Timedelta(days=7)).normalize()`
(`analyze_health.py` line 187). -/
def weekStart (today : Int) : Int := normalizeTs (today - 7 * secPerDay)

/-! ### Sorting and trailing-N selection -/

/-- `DataFrame.sort_values('time')`, modelled as a stable sort by the
timestamp projection. -/
def sortByTime {α : Type} (time : α → Int) (l : List α) : List α :=
  List.insertionSort (fun a b => time a ≤ time b) l

/-- `Series.tail(n)` / `DataFrame.tail(n)`: the last `n` elements. -/
def lastN {α : Type} (n : Nat) (l : List α) : List α :=
  l.drop (l.length - n)

-- sanity checks (epoch day 0 = Thu 1970-01-01)
example : civilFromDays 0 = (1970, 1, 1) := by decide
example : weekdayAbbrev 0 = "Thu" := by decide
example : civilFromDays 20000 = (2024, 10, 4) := by decide
example : monthDayStr 20000 = "Oct 04" := by decide
example : datasetKey "VO2 Max" = "VO2Max" := by decide
example : humanizeType "indoor_climbing" = "Climbing" := by decide
example : humanizeType "bouldering" = "Bouldering" := by decide
example : fmt1 ⟨3, 2⟩ = "1.5" := by decide
example : fmt0 ⟨50, 1⟩ = "50" := by decide
example : containsSubstr "abcdef" "cde" = true := by decide
example : containsSubstr "abcdef" "cdf" = false := by decide

/-! ### Data model (spec section 3; column conventions as in the source) -/

/-- A row of `ActivitySummary`.  `ActivityID`, `time` and `activityType`
are mandatory per the data model; the remaining columns are optional and
gated by the table-level presence flags below.  An optional cell holds
`none` for a missing value (`NaN`). -/
structure ActivityRow where
  activityID : Nat
  time : Int
  activityType : String
  activityName : Option String
  movingDuration : Option Int
  elapsedDuration : Option Int
  averageHR : Option Int
  maxHR : Option Int
deriving DecidableEq

structure ActivityTable where
  rows : List ActivityRow
  hasName : Bool
  hasMoving : Bool
  hasElapsed : Bool
  hasAvgHR : Bool
  hasMaxHR : Bool
deriving DecidableEq

/-- A row of `ClimbingRoutes` or `BoulderProblems`.  `ActivityID` and
`Duration` are mandatory per the data model (so the source's
`'Duration' in columns` guard is always taken and
`calculate_climbing_duration` cannot hit a missing column); grade, result
and attempt-count columns are optional, gated by table flags. -/
structure DetailRow where
  activityID : Nat
  duration : Int
  grade : String
  resultType : String
  attemptCount : Int
deriving DecidableEq

structure DetailTable where
  rows : List DetailRow
  hasGrade : Bool
  hasResult : Bool
  hasAttempts : Bool
deriving DecidableEq

/-- A row of `SleepSummary`.  The HRV cell can be missing (`NaN`), which
`dropna()` is sensitive to; the sleep-time and sleep-score cells are
modelled as plain values. -/
structure SleepRow where
  time : Int
  hrv : Option Int
  sleepTimeSeconds : Int
  sleepScore : Int
deriving DecidableEq

structure SleepTable where
  rows : List SleepRow
  hasHrv : Bool
  hasSleepTime : Bool
  hasSleepScore : Bool
deriving DecidableEq

structure DailyRow where
  time : Int
  totalSteps : Int
  restingHeartRate : Int
  stressDuration : Int
deriving DecidableEq

structure DailyTable where
  rows : List DailyRow
  hasSteps : Bool
  hasRHR : Bool
  hasStress : Bool
deriving DecidableEq

structure TRRow where
  time : Int
  score : Int
  level : String
  acuteLoad : Int
deriving DecidableEq

structure TRTable where
  rows : List TRRow
  hasScore : Bool
  hasLevel : Bool
  hasAcute : Bool
deriving DecidableEq

structure VO2Row where
  time : Int
  vo2MaxValue : Int
deriving DecidableEq

structure VO2Table where
  rows : List VO2Row
  hasVo2 : Bool
deriving DecidableEq

/-- The data store: the Python side is a string-keyed dict of DataFrames;
we give it one field per key the program reads.  Note the two distinct
VO2 keys: `parse_markdown_tables` stores a section titled "VO2 Max" under
`"VO2Max"` (`datasetKey`), while `gather_recent_metrics` looks up
`"VO2_Max"` (source line 401); both possible keys are modelled. -/
structure Store where
  activitySummary : Option ActivityTable
  climbingRoutes : Option DetailTable
  boulderProblems : Option DetailTable
  sleepSummary : Option SleepTable
  dailyStats : Option DailyTable
  trainingReadiness : Option TRTable
  vo2Max : Option VO2Table
  vo2_Max : Option VO2Table
deriving DecidableEq

/-! ### Duration reconciler and duration formatting -/

/-- `calculate_climbing_duration` (source lines 142-154): sum the
`Duration` of the detail rows matching the activity id, across both
detail tables; a missing or empty table contributes 0. -/
def calculate_climbing_duration (activity_id : Nat)
    (climbing_routes boulder_problems : Option DetailTable) : Int :=
  let fromRoutes : Int :=
    match climbing_routes with
    | none => 0
    | some t =>
      if t.rows.isEmpty then 0
      else ((t.rows.filter (fun r => r.activityID == activity_id)).map
              (fun r => r.duration)).sum
  let fromProblems : Int :=
    match boulder_problems with
    | none => 0
    | some t =>
      if t.rows.isEmpty then 0
      else ((t.rows.filter (fun r => r.activityID == activity_id)).map
              (fun r => r.duration)).sum
  fromRoutes + fromProblems

/-- `format_duration` (source lines 156-166).  `none` models a
missing/`NaN` input (`pd.isna`). -/
def format_duration (seconds : Option Int) : String :=
  match seconds with
  | none => "0 min"
  | some s =>
    if s == 0 then "0 min"
    else
      let minutes : Frac := ⟨s, 60⟩
      if minutes.geInt 90 then
        let hours : Frac := minutes.divInt 60
        fmt1 hours ++ " hours"
      else
        toString minutes.trunc ++ " min"

/-! ### Weekly activity narrator -/

/-- The per-activity record built inside `analyze_weekly_activities`
(source lines 204-210). -/
structure ActInfo where
  type : String
  duration : Option Int
  name : Option String
  averageHR : Option Int
  maxHR : Option Int
deriving DecidableEq

/-- Build the `activity_info` dict for one row (source lines 196-210).
For climbing/bouldering types the duration is the reconciled sum; for the
rest it is `row.get('movingDuration', row.get('elapsedDuration', 0))`,
whose fallbacks key on column presence. -/
def mkActInfo (tbl : ActivityTable) (cr bp : Option DetailTable)
    (r : ActivityRow) : ActInfo :=
  let dur : Option Int :=
    if r.activityType == "indoor_climbing" || r.activityType == "bouldering" then
      some (calculate_climbing_duration r.activityID cr bp)
    else if tbl.hasMoving then r.movingDuration
    else if tbl.hasElapsed then r.elapsedDuration
    else some 0
  { type := r.activityType
    duration := dur
    name := if tbl.hasName then r.activityName else some r.activityType
    averageHR := if tbl.hasAvgHR then r.averageHR else none
    maxHR := if tbl.hasMaxHR then r.maxHR else none }

/-- Append an activity to the group of its date, preserving insertion
order of both keys and group members (the `daily_activities` dict,
source lines 212-214). -/
def insertGrouped (m : List (Int × List ActInfo)) (d : Int) (a : ActInfo) :
    List (Int × List ActInfo) :=
  match m with
  | [] => [(d, [a])]
  | (k, v) :: rest =>
    if k == d then (k, v ++ [a]) :: rest else (k, v) :: insertGrouped rest d a

/-- Group the kept activities by calendar date (source lines 191-214). -/
def groupByDate (tbl : ActivityTable) (cr bp : Option DetailTable)
    (l : List ActivityRow) : List (Int × List ActInfo) :=
  l.foldl (fun m r => insertGrouped m (dayOf r.time) (mkActInfo tbl cr bp r)) []

/-- Render one activity as `<Type> (<duration>[, Avg HR x, Max HR y])`
(source lines 228-242).  The heart-rate annotation requires both values
present (non-`NaN`), truthy (non-zero) and a cardio activity type. -/
def actStr (a : ActInfo) : String :=
  let t := humanizeType a.type
  let durationStr := format_duration a.duration
  let hrInfo : String :=
    match a.averageHR, a.maxHR with
    | some avg, some mx =>
      if a.type == "running" || a.type == "cycling" || a.type == "indoor_cycling" then
        if avg == 0 || mx == 0 then ""
        else ", Avg HR " ++ toString avg ++ ", Max HR " ++ toString mx
      else ""
    | _, _ => ""
  t ++ " (" ++ durationStr ++ hrInfo ++ ")"

/-- Render the line of one calendar day (source lines 219-246). -/
def renderDayLine (grouped : List (Int × List ActInfo)) (d : Int) : String :=
  let dayName := weekdayAbbrev d
  let dateStr := monthDayStr d
  match List.lookup d grouped with
  | some acts =>
    "* " ++ dayName ++ " " ++ dateStr ++ ": " ++
      String.intercalate " + " (acts.map actStr)
  | none =>
    "* " ++ dayName ++ " " ++ dateStr ++ ": REST DAY (no activities recorded)"

/-- `analyze_weekly_activities` (source lines 168-248).  The reference
timestamp `today` is passed explicitly (the Python default is the wall
clock). -/
def analyze_weekly_activities (data : Store) (today : Int) : String :=
  match data.activitySummary with
  | none => "No activity data found."
  | some tbl =>
    if tbl.rows.isEmpty then "No activity data found."
    else
      let acts := tbl.rows.filter (fun r => !(r.activityType == "No Activity"))
      let sorted := sortByTime (fun r => r.time) acts
      let recent := sorted.filter (fun r => weekStart today ≤ r.time)
      let grouped := groupByDate tbl data.climbingRoutes data.boulderProblems recent
      let lines :=
        "**Previous Week\x27s Activities:**\n" ::
          (List.range 7).map (fun (j : Nat) =>
            renderDayLine grouped (dayOf today - (7 - (j : Int))))
      String.intercalate "\n" lines

/-! ### Discipline analyzer (climbing/bouldering) -/

/-- The literal `isin` list for completed climbing routes
(source line 292). -/
def routesCompletedVals : List String :=
  ["completed", "Completed", "COMPLETED", "sent", "Sent"]

/-- The literal `isin` list for completed boulder problems
(source line 323). -/
def boulderCompletedVals : List String :=
  ["completed", "Completed", "COMPLETED", "sent", "Sent", "topped", "Topped"]

/-- Python `str.lower()` (ASCII), character by character. -/
def lowerStr (s : String) : String := String.mk (s.toList.map Char.toLower)

/-- Modelled from the spec's words (section 4.3): "completed" matches
case-insensitively against the fixed vocabulary `completed`, `sent`, and
for bouldering also `topped`.  Kept for comparison against the source's
literal list. -/
def specCompletedCI (boulder : Bool) (r : String) : Bool :=
  lowerStr r == "completed" || lowerStr r == "sent" ||
    (boulder && (lowerStr r == "topped"))

/-- Number of detail rows whose `resultType` is in the literal vocabulary
(source lines 292 / 323). -/
def completedCount (vals : List String) (rows : List DetailRow) : Nat :=
  (rows.filter (fun r => vals.contains r.resultType)).length

/-- `(completed / total * 100) if total > 0 else 0`
(source lines 293 / 324), as an exact fraction. -/
def successRate (completed total : Nat) : Frac :=
  if 0 < total then ⟨(completed : Int) * 100, (total : Int)⟩ else ⟨0, 1⟩

/-- The completion-rate bullet (source lines 294 / 325). -/
def completionLine (vals : List String) (rows : List DetailRow) : String :=
  let completed := completedCount vals rows
  let total := rows.length
  "- Completion rate: " ++ fmt0 (successRate completed total) ++ "% (" ++
    toString completed ++ "/" ++ toString total ++ ")"

/-- `value_counts()` over the grade column: counts in first-seen order,
then stably sorted by descending count (the tie order of pandas is
incidental; the spec documents it as unspecified). -/
def gradeCountsAux (acc : List (String × Nat)) (g : String) :
    List (String × Nat) :=
  if acc.any (fun p => p.1 == g) then
    acc.map (fun p => if p.1 == g then (p.1, p.2 + 1) else p)
  else acc ++ [(g, 1)]

def gradeCounts (l : List String) : List (String × Nat) :=
  List.insertionSort (fun a b => b.2 ≤ a.2) (l.foldl gradeCountsAux [])

/-- The grades bullet (source lines 286-288 / 317-319). -/
def gradeLine (grades : List String) : String :=
  "- Grades attempted: " ++
    String.intercalate ", "
      ((gradeCounts grades).map (fun p => p.1 ++ ": " ++ toString p.2))

/-- One detail-table block of `analyze_climbing_bouldering`
(source lines 275-303 for routes, 306-334 for problems; the two blocks
are textually parallel, differing in the labels and the completed
vocabulary).  `Duration` is a mandatory column of the data model, so the
source's `'Duration' in columns` guard is always taken. -/
def detailSection (ids : List Nat) (tbl? : Option DetailTable)
    (header totalLabel avgLabel timeLabel : String)
    (completedVals : List String) : List String :=
  match tbl? with
  | none => []
  | some t =>
    if t.rows.isEmpty then []
    else
      let recent := t.rows.filter (fun r => ids.contains r.activityID)
      if recent.isEmpty then []
      else
        [header, totalLabel ++ toString recent.length] ++
        (if t.hasGrade then [gradeLine (recent.map (fun r => r.grade))] else []) ++
        (if t.hasResult then [completionLine completedVals recent] else []) ++
        (if t.hasAttempts then
          [avgLabel ++ fmt1 (fracMean (recent.map (fun r => r.attemptCount)))]
         else []) ++
        [timeLabel ++ format_duration (some ((recent.map (fun r => r.duration)).sum))]

/-- `analyze_climbing_bouldering` (source lines 250-339). -/
def analyze_climbing_bouldering (data : Store) (today : Int) : String :=
  let ws := weekStart today
  let recentClimbingIds : List Nat :=
    match data.activitySummary with
    | none => []
    | some tbl =>
      if tbl.rows.isEmpty then []
      else
        (tbl.rows.filter (fun r =>
          decide (ws ≤ r.time) &&
            (r.activityType == "indoor_climbing" ||
             r.activityType == "bouldering"))).map (fun r => r.activityID)
  let routeParts := detailSection recentClimbingIds data.climbingRoutes
    "\n**Climbing Routes (Last 7 Days):**" "- Total routes attempted: "
    "- Average attempts per route: " "- Total climbing time: "
    routesCompletedVals
  let problemParts := detailSection recentClimbingIds data.boulderProblems
    "\n**Bouldering Problems (Last 7 Days):**" "- Total problems attempted: "
    "- Average attempts per problem: " "- Total bouldering time: "
    boulderCompletedVals
  let parts := routeParts ++ problemParts
  if parts.isEmpty then "" else String.intercalate "\n" parts

/-! ### HRV analysis -/

/-- `analyze_hrv` (source lines 342-364).  Accessing the
`avgOvernightHrv` column of a present, non-empty table in which the
column is absent raises `KeyError`, modelled as `Except.error`. -/
def analyze_hrv (data : Store) : Except String String :=
  match data.sleepSummary with
  | none => .ok "No HRV data available."
  | some tbl =>
    if tbl.rows.isEmpty then .ok "No HRV data available."
    else if !tbl.hasHrv then .error "KeyError: avgOvernightHrv"
    else
      let sorted := sortByTime (fun r => r.time) tbl.rows
      let recentHrv := lastN 7 (sorted.filterMap (fun r => r.hrv))
      if recentHrv.isEmpty then .ok "No HRV data available."
      else
        let avgHrv := fracMean recentHrv
        let lastHrv := recentHrv.getLast?.getD 0
        .ok (String.intercalate "\n"
          ["\n**HRV Status:**\n",
           "Average overnight HRV for last 7 days is " ++
             toString avgHrv.trunc ++ " ms",
           "Last overnight HRV is " ++ toString lastHrv ++ " ms"])

/-! ### Recovery and readiness aggregation -/

structure TRMetrics where
  score : String
  level : String
  acute_load : String
deriving DecidableEq

structure SleepMetrics where
  avg_duration_hours : Frac
  avg_score : Frac
  latest_score : String
deriving DecidableEq

structure DailyMetrics where
  avg_steps : Option Frac
  avg_resting_hr : Option Frac
  avg_stress : Option Frac
deriving DecidableEq

structure VO2Metrics where
  recent_values : List Int
deriving DecidableEq

structure Metrics where
  training_readiness : Option TRMetrics
  sleep : Option SleepMetrics
  daily : Option DailyMetrics
  vo2_max : Option VO2Metrics
deriving DecidableEq

/-- Training-readiness metrics (source lines 371-378); `Series.get` with
a default keys on column presence. -/
def gather_tr (tr? : Option TRTable) : Option TRMetrics :=
  match tr? with
  | none => none
  | some t =>
    if t.rows.isEmpty then none
    else
      match (sortByTime (fun r => r.time) t.rows).getLast? with
      | none => none
      | some latest =>
        some { score := if t.hasScore then toString latest.score else "N/A"
               level := if t.hasLevel then latest.level else "N/A"
               acute_load := if t.hasAcute then toString latest.acuteLoad else "N/A" }

/-- Sleep metrics (source lines 381-388): the `sleepTimeSeconds` and
`sleepScore` columns are accessed without a presence guard, so a missing
column raises `KeyError`. -/
def gather_sleep (s? : Option SleepTable) : Except String (Option SleepMetrics) :=
  match s? with
  | none => .ok none
  | some t =>
    if t.rows.isEmpty then .ok none
    else if !t.hasSleepTime then .error "KeyError: sleepTimeSeconds"
    else if !t.hasSleepScore then .error "KeyError: sleepScore"
    else
      let recent := lastN 7 (sortByTime (fun r => r.time) t.rows)
      .ok (some
        { avg_duration_hours :=
            (fracMean (recent.map (fun r => r.sleepTimeSeconds))).divInt 3600
          avg_score := fracMean (recent.map (fun r => r.sleepScore))
          latest_score :=
            match (recent.map (fun r => r.sleepScore)).getLast? with
            | some v => toString v
            | none => "N/A" })

/-- Daily metrics (source lines 391-398): each column is guarded by a
presence check (`'totalSteps' in recent_daily`), `'N/A'` modelled as
`none`. -/
def gather_daily (d? : Option DailyTable) : Option DailyMetrics :=
  match d? with
  | none => none
  | some t =>
    if t.rows.isEmpty then none
    else
      let recent := lastN 7 (sortByTime (fun r => r.time) t.rows)
      some { avg_steps :=
               if t.hasSteps then some (fracMean (recent.map (fun r => r.totalSteps)))
               else none
             avg_resting_hr :=
               if t.hasRHR then some (fracMean (recent.map (fun r => r.restingHeartRate)))
               else none
             avg_stress :=
               if t.hasStress then
                 some ((fracMean (recent.map (fun r => r.stressDuration))).divInt 60)
               else none }

/-- VO2 metrics (source lines 401-406). -/
def gather_vo2 (v? : Option VO2Table) : Option VO2Metrics :=
  match v? with
  | none => none
  | some t =>
    if t.rows.isEmpty then none
    else
      let latest3 := lastN 3 (sortByTime (fun r => r.time) t.rows)
      some { recent_values :=
               if t.hasVo2 then latest3.map (fun r => r.vo2MaxValue) else [] }

/-- `gather_recent_metrics` (source lines 366-408).  Note that the VO2
metrics are read from the `"VO2_Max"` key (`Store.vo2_Max`), not the
`"VO2Max"` key the loader produces for a "VO2 Max" section. -/
def gather_recent_metrics (data : Store) : Except String Metrics := do
  let sleepM ← gather_sleep data.sleepSummary
  return { training_readiness := gather_tr data.trainingReadiness
           sleep := sleepM
           daily := gather_daily data.dailyStats
           vo2_max := gather_vo2 data.vo2_Max }

/-! ### Prompt assembler -/

/-- The daily-metrics block of `format_data_for_claude` (source lines
432-437): the section header is glued to the steps bullet, which is
replaced by an empty string when steps are unavailable; the resting
heart-rate bullet is appended independently; the stress average is never
rendered. -/
def dailyPromptParts (daily : DailyMetrics) : List String :=
  (match daily.avg_steps with
   | some st => ["\n**Daily Metrics (7-day average):**\n- Steps: " ++ fmt0 st]
   | none => [""]) ++
  (match daily.avg_resting_hr with
   | some hr => ["- Resting Heart Rate: " ++ fmt0 hr ++ " bpm"]
   | none => [])

/-- The daily block as selected on `metrics` (source lines 432-437). -/
def dailySectionParts (m : Option DailyMetrics) : List String :=
  match m with
  | some d => dailyPromptParts d
  | none => []

def closingInstructions : String :=
  "\n\nPlease provide a comprehensive health report with:\n1. Daily Performance Summary\n2. Activity-Specific Coaching (including climbing/bouldering analysis if data is present)\n3. Recovery & Readiness Insights\n4. Recommendations for today and tomorrow"

/-- The pieces joined by `format_data_for_claude` (source lines 410-440),
with the wall-clock reference passed explicitly. -/
def promptParts (data : Store) (today : Int) : Except String (List String) := do
  let hrv ← analyze_hrv data
  let base :=
    ["Today is " ++ fullDateStr (dayOf today) ++ ". Please analyze my recent Garmin health and training data and provide a comprehensive daily health report.\n",
     analyze_weekly_activities data today,
     analyze_climbing_bouldering data today,
     hrv]
  let metrics ← gather_recent_metrics data
  let trParts :=
    match metrics.training_readiness with
    | some tr =>
      ["\n**Training Readiness:**\n- Score: " ++ tr.score ++ "\n- Level: " ++
        tr.level ++ "\n- Acute Load: " ++ tr.acute_load]
    | none => []
  let sleepParts :=
    match metrics.sleep with
    | some s =>
      ["\n**Recent Sleep (7-day average):**\n- Duration: " ++
        fmt1 s.avg_duration_hours ++ " hours\n- Average Score: " ++
        fmt0 s.avg_score ++ "\n- Latest Score: " ++ s.latest_score]
    | none => []
  let dailyParts := dailySectionParts metrics.daily
  return base ++ trParts ++ sleepParts ++ dailyParts ++ [closingInstructions]

/-- `format_data_for_claude` (source lines 410-440). -/
def format_data_for_claude (data : Store) (today : Int) : Except String String :=
  (promptParts data today).map (String.intercalate "\n")

/-! ### Helper definitions and lemmas -/

/-- The rows of an optional detail table (an absent table has none). -/
def detailRows (t? : Option DetailTable) : List DetailRow :=
  match t? with
  | none => []
  | some t => t.rows

theorem calc_duration_eq_filter_sum (activity_id : Nat)
    (cr bp : Option DetailTable) :
    calculate_climbing_duration activity_id cr bp =
      (((detailRows cr).filter (fun r => r.activityID == activity_id)).map
        (fun r => r.duration)).sum +
      (((detailRows bp).filter (fun r => r.activityID == activity_id)).map
        (fun r => r.duration)).sum := by
  have side : ∀ t? : Option DetailTable,
      (match t? with
        | none => 0
        | some t =>
          if t.rows.isEmpty then 0
          else ((t.rows.filter (fun r => r.activityID == activity_id)).map
                  (fun r => r.duration)).sum) =
        (((detailRows t?).filter (fun r => r.activityID == activity_id)).map
          (fun r => r.duration)).sum := by
    intro t?
    match t? with
    | none => rfl
    | some t =>
      by_cases h : t.rows.isEmpty
      · rw [List.isEmpty_iff] at h
        simp [detailRows, h]
      · have h' : t.rows.isEmpty = false := Bool.eq_false_iff.mpr h
        simp [detailRows, h']
  unfold calculate_climbing_duration
  rw [side cr, side bp]

theorem calc_duration_zero_of_no_match (activity_id : Nat)
    (cr bp : Option DetailTable)
    (hcr : ∀ x ∈ detailRows cr, x.activityID ≠ activity_id)
    (hbp : ∀ x ∈ detailRows bp, x.activityID ≠ activity_id) :
    calculate_climbing_duration activity_id cr bp = 0 := by
  rw [calc_duration_eq_filter_sum]
  have efil : ∀ l : List DetailRow, (∀ x ∈ l, x.activityID ≠ activity_id) →
      l.filter (fun r => r.activityID == activity_id) = [] := by
    intro l h
    rw [List.filter_eq_nil_iff]
    intro a ha
    simpa using h a ha
  rw [efil _ hcr, efil _ hbp]
  rfl

/-! ### C6: duration formatting -/

/-- C6: `format_duration` returns "0 min" on 0 or missing input, the
integer minute count plus " min" strictly under 90 minutes, the
one-decimal hour count plus " hours" at 90 minutes or more, and in
particular `format(0) = "0 min"`, `format(89*60) = "89 min"`,
`format(90*60) = "1.5 hours"`, `format(None) = "0 min"`.  Confirmed. -/
theorem duration_formatting_rule (s : Int) :
    format_duration none = "0 min" ∧
    format_duration (some 0) = "0 min" ∧
    (s ≠ 0 → (s : ℚ) / 60 < 90 →
      format_duration (some s) = toString (Frac.trunc ⟨s, 60⟩) ++ " min") ∧
    (s ≠ 0 → (90 : ℚ) ≤ (s : ℚ) / 60 →
      format_duration (some s) = fmt1 ⟨s, 60 * 60⟩ ++ " hours") ∧
    format_duration (some (89 * 60)) = "89 min" ∧
    format_duration (some (90 * 60)) = "1.5 hours" := by
  have hkey : ((90 : ℚ) ≤ (s : ℚ) / 60) ↔ Frac.geInt ⟨s, 60⟩ 90 = true := by
    rw [le_div_iff₀ (by norm_num : (0 : ℚ) < 60)]
    unfold Frac.geInt
    rw [decide_eq_true_iff]
    constructor
    · intro h
      exact_mod_cast h
    · intro h
      exact_mod_cast h
  refine ⟨rfl, rfl, ?_, ?_, by decide, by decide⟩
  · intro hs hlt
    have hnot : Frac.geInt ⟨s, 60⟩ 90 = false := by
      rcases Bool.eq_false_or_eq_true (Frac.geInt ⟨s, 60⟩ 90) with h | h
      · exact absurd (hkey.mpr h) (not_le_of_lt hlt)
      · exact h
    have hs' : (s == 0) = false := by simpa using hs
    simp only [format_duration, hs', Bool.false_eq_true, if_false, hnot]
  · intro hs hge
    have hyes : Frac.geInt ⟨s, 60⟩ 90 = true := hkey.mp hge
    have hs' : (s == 0) = false := by simpa using hs
    simp only [format_duration, hs', Bool.false_eq_true, if_false, hyes, if_true]
    rfl

/-- Witness for C6 at the 90-minute boundary. -/
theorem duration_formatting_rule_witness :
    (5400 : Int) ≠ 0 ∧ (90 : ℚ) ≤ ((5400 : Int) : ℚ) / 60 ∧
      format_duration (some 5400) = fmt1 ⟨5400, 60 * 60⟩ ++ " hours" :=
  ⟨by decide, by norm_num,
    (duration_formatting_rule 5400).2.2.2.1 (by decide) (by norm_num)⟩

/-! ### C7: duration reconciler -/

/-- C7: the reconciler returns the sum of the `Duration` of exactly the
detail records (across both tables) whose `ActivityID` matches; it
returns 0 when both tables are absent, or empty, or nothing matches; it
is a total function (never raises).  Confirmed. -/
theorem reconciler_sums_matching_durations (activity_id : Nat)
    (cr bp : Option DetailTable) :
    (calculate_climbing_duration activity_id cr bp =
      (((detailRows cr).filter (fun r => r.activityID == activity_id)).map
        (fun r => r.duration)).sum +
      (((detailRows bp).filter (fun r => r.activityID == activity_id)).map
        (fun r => r.duration)).sum) ∧
    calculate_climbing_duration activity_id none none = 0 ∧
    ((∀ x ∈ detailRows cr, x.activityID ≠ activity_id) →
      (∀ x ∈ detailRows bp, x.activityID ≠ activity_id) →
      calculate_climbing_duration activity_id cr bp = 0) :=
  ⟨calc_duration_eq_filter_sum activity_id cr bp, rfl,
    fun hcr hbp => calc_duration_zero_of_no_match activity_id cr bp hcr hbp⟩

/-- Witness for C7: a non-matching row contributes nothing. -/
theorem reconciler_sums_matching_durations_witness :
    calculate_climbing_duration 5
      (some { rows := [{ activityID := 6, duration := 99, grade := "",
                         resultType := "", attemptCount := 0 }],
              hasGrade := false, hasResult := false, hasAttempts := false })
      none = 0 :=
  (reconciler_sums_matching_durations 5 _ none).2.2 (by decide) (by decide)

/-! ### C9: missing or empty activity table -/

/-- C9: with `ActivitySummary` absent or empty, the weekly narrator
returns the fixed string "No activity data found." (so no day lines at
all).  Confirmed. -/
theorem no_activity_data_message (data : Store) (today : Int)
    (h : ∀ t, data.activitySummary = some t → t.rows = []) :
    analyze_weekly_activities data today = "No activity data found." := by
  cases hA : data.activitySummary with
  | none => simp [analyze_weekly_activities, hA]
  | some t =>
    have ht := h t hA
    simp [analyze_weekly_activities, hA, ht]

/-- Witness for C9 at an entirely empty store. -/
theorem no_activity_data_message_witness :
    analyze_weekly_activities
      { activitySummary := none, climbingRoutes := none,
        boulderProblems := none, sleepSummary := none, dailyStats := none,
        trainingReadiness := none, vo2Max := none, vo2_Max := none } 0 =
      "No activity data found." :=
  no_activity_data_message _ 0 (fun _ h => Option.noConfusion h)

/-! ### Congruence of the assembled prompt -/

/-- The assembled prompt depends on the store only through the weekly
narrative, the discipline analysis, the HRV block, the sleep metrics, the
training-readiness metrics and the rendered daily block; in particular it
never reads the VO2 metrics or the daily stress average. -/
theorem promptParts_congr (d1 d2 : Store) (today : Int)
    (h1 : analyze_hrv d1 = analyze_hrv d2)
    (h2 : analyze_weekly_activities d1 today = analyze_weekly_activities d2 today)
    (h3 : analyze_climbing_bouldering d1 today = analyze_climbing_bouldering d2 today)
    (h4 : gather_sleep d1.sleepSummary = gather_sleep d2.sleepSummary)
    (h5 : gather_tr d1.trainingReadiness = gather_tr d2.trainingReadiness)
    (h6 : dailySectionParts (gather_daily d1.dailyStats) =
          dailySectionParts (gather_daily d2.dailyStats)) :
    promptParts d1 today = promptParts d2 today := by
  unfold promptParts gather_recent_metrics
  simp only [h1, h2, h3, h4, h5]
  cases analyze_hrv d2 with
  | error e => rfl
  | ok hrvs =>
    cases gather_sleep d2.sleepSummary with
    | error e => rfl
    | ok sleepM =>
      simp only [bind, Except.bind, pure, Except.pure, h6]

/-- A store with both VO2 keys replaced. -/
def setVo2 (data : Store) (v w : Option VO2Table) : Store :=
  { data with vo2Max := v, vo2_Max := w }

/-! ### C1: VO2 readings and the assembled prompt -/

/-- The three most recent readings, in chronological order. -/
def vo2Trailing3 (t : VO2Table) : List Int :=
  (lastN 3 (sortByTime (fun r => r.time) t.rows)).map (fun r => r.vo2MaxValue)

/-- C1 (code bug evidence): (i) the loader stores a section titled
"VO2 Max" under the key `"VO2Max"`, while `gather_recent_metrics` reads
the key `"VO2_Max"`; (ii) when the `"VO2_Max"` key is populated, the
aggregation does compute the three most recent `vo2MaxValue` readings in
chronological order; (iii) but the assembled prompt is independent of
both VO2 keys of the store, so the readings never reach the prompt. -/
theorem vo2_readings_never_in_prompt (data : Store) (today : Int)
    (v w : Option VO2Table) (t : VO2Table) :
    datasetKey "VO2 Max" = "VO2Max" ∧
    (t.rows ≠ [] → t.hasVo2 = true →
      gather_vo2 (some t) = some { recent_values := vo2Trailing3 t }) ∧
    format_data_for_claude (setVo2 data v w) today =
      format_data_for_claude (setVo2 data none none) today := by
  refine ⟨by decide, ?_, ?_⟩
  · intro hne hv
    have h' : t.rows.isEmpty = false := by
      simp [List.isEmpty_iff, hne]
    simp [gather_vo2, h', hv, vo2Trailing3]
  · unfold format_data_for_claude
    have hp : promptParts (setVo2 data v w) today =
        promptParts (setVo2 data none none) today :=
      promptParts_congr _ _ _ rfl rfl rfl rfl rfl rfl
    rw [hp]

def vo2Rows4 : List VO2Row :=
  [{ time := 400, vo2MaxValue := 47 }, { time := 100, vo2MaxValue := 44 },
   { time := 300, vo2MaxValue := 46 }, { time := 200, vo2MaxValue := 45 }]

/-- Witness for C1: on four unsorted readings the aggregation keeps the
last three in chronological order. -/
theorem vo2_readings_never_in_prompt_witness :
    gather_vo2 (some { rows := vo2Rows4, hasVo2 := true }) =
      some { recent_values := vo2Trailing3 { rows := vo2Rows4, hasVo2 := true } } ∧
    vo2Trailing3 { rows := vo2Rows4, hasVo2 := true } = [45, 46, 47] :=
  ⟨(vo2_readings_never_in_prompt
      { activitySummary := none, climbingRoutes := none,
        boulderProblems := none, sleepSummary := none, dailyStats := none,
        trainingReadiness := none, vo2Max := none, vo2_Max := none } 0 none none
      { rows := vo2Rows4, hasVo2 := true }).2.1 (by decide) rfl,
   by decide⟩

/-! ### C3: missing optional columns -/

def exceptOk {α : Type} : Except String α → Bool
  | .ok _ => true
  | .error _ => false

theorem analyze_hrv_isOk (data : Store) :
    exceptOk (analyze_hrv data) = true ↔
      (∀ t, data.sleepSummary = some t → t.rows ≠ [] → t.hasHrv = true) := by
  cases hA : data.sleepSummary with
  | none => simp [analyze_hrv, hA, exceptOk]
  | some t =>
    by_cases he : t.rows.isEmpty
    · rw [List.isEmpty_iff] at he
      simp [analyze_hrv, hA, he, exceptOk]
    · have he' : t.rows.isEmpty = false := Bool.eq_false_iff.mpr he
      rw [List.isEmpty_iff] at he
      cases hh : t.hasHrv with
      | false => simp [analyze_hrv, hA, he', hh, exceptOk, he]
      | true =>
        by_cases hr : (lastN 7 ((sortByTime (fun r => r.time) t.rows).filterMap
            (fun r => r.hrv))).isEmpty
        · simp [analyze_hrv, hA, he', hh, hr, exceptOk]
        · have hr' := Bool.eq_false_iff.mpr hr
          simp [analyze_hrv, hA, he', hh, hr', exceptOk]

theorem gather_sleep_isOk (s? : Option SleepTable) :
    exceptOk (gather_sleep s?) = true ↔
      (∀ t, s? = some t → t.rows ≠ [] →
        (t.hasSleepTime = true ∧ t.hasSleepScore = true)) := by
  cases s? with
  | none => simp [gather_sleep, exceptOk]
  | some t =>
    by_cases he : t.rows.isEmpty
    · rw [List.isEmpty_iff] at he
      simp [gather_sleep, he, exceptOk]
    · have he' : t.rows.isEmpty = false := Bool.eq_false_iff.mpr he
      rw [List.isEmpty_iff] at he
      cases h1 : t.hasSleepTime with
      | false => simp [gather_sleep, he', h1, exceptOk, he]
      | true =>
        cases h2 : t.hasSleepScore with
        | false => simp [gather_sleep, he', h1, h2, exceptOk, he]
        | true => simp [gather_sleep, he', h1, h2, exceptOk, he]

theorem promptParts_isOk (data : Store) (today : Int) :
    exceptOk (promptParts data today) =
      (exceptOk (analyze_hrv data) && exceptOk (gather_sleep data.sleepSummary)) := by
  unfold promptParts gather_recent_metrics
  cases analyze_hrv data with
  | error e => rfl
  | ok hrvs =>
    cases gather_sleep data.sleepSummary with
    | error e => rfl
    | ok sleepM => rfl

/-- C3 (amended): the pipeline tolerates missing optional columns in
`TrainingReadiness`, `DailyStats` and the VO2 table, but it raises
`KeyError` exactly when a present, non-empty `SleepSummary` lacks one of
`avgOvernightHrv`, `sleepTimeSeconds`, `sleepScore`; no section at all is
produced in that case. -/
theorem pipeline_raises_iff_sleep_columns (data : Store) (today : Int) :
    exceptOk (format_data_for_claude data today) = true ↔
      (∀ t, data.sleepSummary = some t → t.rows ≠ [] →
        (t.hasHrv = true ∧ t.hasSleepTime = true ∧ t.hasSleepScore = true)) := by
  have hmap : exceptOk (format_data_for_claude data today) =
      exceptOk (promptParts data today) := by
    unfold format_data_for_claude
    cases promptParts data today with
    | error e => rfl
    | ok l => rfl
  rw [hmap, promptParts_isOk, Bool.and_eq_true, analyze_hrv_isOk,
    gather_sleep_isOk]
  constructor
  · rintro ⟨ha, hb⟩ t ht hne
    exact ⟨ha t ht hne, (hb t ht hne).1, (hb t ht hne).2⟩
  · intro h
    exact ⟨fun t ht hne => (h t ht hne).1,
           fun t ht hne => ⟨(h t ht hne).2.1, (h t ht hne).2.2⟩⟩

/-- Counterexample to C3 as stated: a store whose present, non-empty
`SleepSummary` lacks the optional `avgOvernightHrv` column makes
`analyze_hrv` raise `KeyError` and the whole pipeline raise, instead of
degrading gracefully. -/
theorem missing_hrv_column_counterexample :
    analyze_hrv
      { activitySummary := none, climbingRoutes := none,
        boulderProblems := none,
        sleepSummary := some { rows := [{ time := 0, hrv := some 50,
                                          sleepTimeSeconds := 28800,
                                          sleepScore := 80 }],
                               hasHrv := false, hasSleepTime := true,
                               hasSleepScore := true },
        dailyStats := none, trainingReadiness := none, vo2Max := none,
        vo2_Max := none } = Except.error "KeyError: avgOvernightHrv" ∧
    exceptOk (format_data_for_claude
      { activitySummary := none, climbingRoutes := none,
        boulderProblems := none,
        sleepSummary := some { rows := [{ time := 0, hrv := some 50,
                                          sleepTimeSeconds := 28800,
                                          sleepScore := 80 }],
                               hasHrv := false, hasSleepTime := true,
                               hasSleepScore := true },
        dailyStats := none, trainingReadiness := none, vo2Max := none,
        vo2_Max := none } 0) = false := by
  constructor
  · rfl
  · rfl

/-! ### C2: completion rate vocabulary -/

/-- C2 (amended): a detail record counts as completed iff its
`resultType` is literally one of the `isin` list entries (`completed`,
`Completed`, `COMPLETED`, `sent`, `Sent`, plus `topped`/`Topped` for
bouldering) — not an arbitrary case variant; the rate is
completed/attempted×100 (0 when attempted is 0), rendered with zero
decimal places, and the rate bullet is part of the emitted section. -/
theorem completion_rate_literal_vocabulary (t : DetailTable) (ids : List Nat)
    (header totalLabel avgLabel timeLabel : String) (vals : List String) :
    (∀ rows : List DetailRow, ∀ vs : List String,
      completedCount vs rows =
        (rows.filter (fun r => decide (r.resultType ∈ vs))).length) ∧
    (∀ c n : Nat, 0 < n → (successRate c n).val = (c : ℚ) / (n : ℚ) * 100) ∧
    (∀ c : Nat, (successRate c 0).val = 0) ∧
    (t.hasResult = true →
      (t.rows.filter (fun r => ids.contains r.activityID)) ≠ [] →
      completionLine vals (t.rows.filter (fun r => ids.contains r.activityID)) ∈
        detailSection ids (some t) header totalLabel avgLabel timeLabel vals) := by
  refine ⟨?_, ?_, ?_, ?_⟩
  · intro rows vs
    unfold completedCount
    congr 1
    apply List.filter_congr
    intro a _
    simp [List.contains]
  · intro c n hn
    have hn' : (n : ℚ) ≠ 0 := by exact_mod_cast hn.ne'
    rw [successRate, if_pos hn]
    unfold Frac.val
    push_cast
    field_simp
  · intro c
    simp [successRate, Frac.val]
  · intro hres hne
    have hrows : t.rows ≠ [] := by
      intro h
      exact hne (by simp [h])
    have hrows' : t.rows.isEmpty = false := by
      rw [List.isEmpty_eq_false]
      exact hrows
    have hne' : (t.rows.filter (fun r => ids.contains r.activityID)).isEmpty = false := by
      rw [List.isEmpty_eq_false]
      exact hne
    unfold detailSection
    simp only [hrows', hne', hres, Bool.false_eq_true, if_false, if_true]
    simp [List.mem_append]

def c2rows : List DetailRow :=
  [{ activityID := 1, duration := 300, grade := "", resultType := "completed",
     attemptCount := 0 },
   { activityID := 1, duration := 300, grade := "", resultType := "Sent",
     attemptCount := 0 },
   { activityID := 1, duration := 300, grade := "", resultType := "attempted",
     attemptCount := 0 },
   { activityID := 1, duration := 300, grade := "", resultType := "fell",
     attemptCount := 0 }]

/-- Witness for C2: 4 routes with 2 literal matches give a 50% rate. -/
theorem completion_rate_literal_vocabulary_witness :
    (0 : Nat) < 4 ∧
    (successRate 2 4).val = (2 : ℚ) / (4 : ℚ) * 100 ∧
    completedCount routesCompletedVals c2rows = 2 ∧
    fmt0 (successRate (completedCount routesCompletedVals c2rows) c2rows.length) =
      "50" :=
  ⟨by decide,
   (completion_rate_literal_vocabulary
      { rows := [], hasGrade := false, hasResult := false, hasAttempts := false }
      [] "" "" "" "" []).2.1 2 4 (by decide),
   by decide, by decide⟩

def cs2store : Store :=
  { activitySummary := some
      { rows := [{ activityID := 1, time := 9 * 86400,
                   activityType := "indoor_climbing", activityName := none,
                   movingDuration := none, elapsedDuration := none,
                   averageHR := none, maxHR := none }],
        hasName := false, hasMoving := false, hasElapsed := false,
        hasAvgHR := false, hasMaxHR := false },
    climbingRoutes := some
      { rows := [{ activityID := 1, duration := 600, grade := "",
                   resultType := "SENT", attemptCount := 0 }],
        hasGrade := false, hasResult := true, hasAttempts := false },
    boulderProblems := none, sleepSummary := none, dailyStats := none,
    trainingReadiness := none, vo2Max := none, vo2_Max := none }

/-- Counterexample to C2 as stated: `"SENT"` matches the case-insensitive
vocabulary of the spec, yet the analyzer counts it as not completed and
reports a 0% rate for it. -/
theorem completion_ci_counterexample :
    specCompletedCI false "SENT" = true ∧
    completedCount routesCompletedVals
      [{ activityID := 1, duration := 600, grade := "", resultType := "SENT",
         attemptCount := 0 }] = 0 ∧
    containsSubstr (analyze_climbing_bouldering cs2store (10 * 86400))
      "- Completion rate: 0% (0/1)" = true :=
  ⟨by decide, by decide, by decide⟩

/-! ### C4: the daily-metrics block -/

/-- Replace the stress column of a daily row. -/
def setStressRow (v : Int) (r : DailyRow) : DailyRow :=
  { time := r.time, totalSteps := r.totalSteps,
    restingHeartRate := r.restingHeartRate, stressDuration := v }

/-- Replace the whole stress column (presence flag and every cell) of the
daily-stats table of a store. -/
def setStressStore (data : Store) (b : Bool) (v : Int) : Store :=
  { data with dailyStats :=
      data.dailyStats.map (fun t =>
        { rows := t.rows.map (setStressRow v), hasSteps := t.hasSteps,
          hasRHR := t.hasRHR, hasStress := b }) }

theorem gather_daily_stress_free (d? : Option DailyTable) (b : Bool) (v : Int) :
    dailySectionParts (gather_daily (d?.map (fun t =>
      ({ rows := t.rows.map (setStressRow v), hasSteps := t.hasSteps,
         hasRHR := t.hasRHR, hasStress := b } : DailyTable)))) =
    dailySectionParts (gather_daily d?) := by
  cases d? with
  | none => rfl
  | some t =>
    have hsort : sortByTime (fun r => r.time) (t.rows.map (setStressRow v)) =
        (sortByTime (fun r => r.time) t.rows).map (setStressRow v) := by
      unfold sortByTime
      exact (List.map_insertionSort (fun (a b : DailyRow) => a.time ≤ b.time)
        (fun (a b : DailyRow) => a.time ≤ b.time) (setStressRow v) t.rows
        (fun a _ b _ => Iff.rfl)).symm
    by_cases he : t.rows.isEmpty
    · rw [List.isEmpty_iff] at he
      simp [gather_daily, he]
    · have he' : t.rows.isEmpty = false := Bool.eq_false_iff.mpr he
      have hem : (t.rows.map (setStressRow v)).isEmpty = false := by
        rw [List.isEmpty_eq_false, Ne, List.map_eq_nil_iff]
        rw [List.isEmpty_eq_false] at he'
        exact he'
      have hlast : lastN 7 ((sortByTime (fun r => r.time) t.rows).map
          (setStressRow v)) =
          (lastN 7 (sortByTime (fun r => r.time) t.rows)).map (setStressRow v) := by
        unfold lastN
        rw [List.length_map, List.map_drop]
      simp only [Option.map_some', gather_daily, hem, he', Bool.false_eq_true,
        if_false, hsort, hlast, List.map_map]
      rfl

/-- A store with no datasets at all. -/
def emptyStore : Store :=
  { activitySummary := none, climbingRoutes := none, boulderProblems := none,
    sleepSummary := none, dailyStats := none, trainingReadiness := none,
    vo2Max := none, vo2_Max := none }

/-- The trailing 7 daily records by timestamp. -/
def dailyTrailing7 (t : DailyTable) : List DailyRow :=
  lastN 7 (sortByTime (fun r => r.time) t.rows)

/-- The daily metrics the aggregator produces on a non-empty table, field
by field: each mean over the trailing 7 records, independently omitted
when its column is absent; the stress mean is seconds/60. -/
def expectedDailyMetrics (t : DailyTable) : DailyMetrics :=
  { avg_steps :=
      if t.hasSteps then
        some (fracMean ((dailyTrailing7 t).map (fun r => r.totalSteps)))
      else none
    avg_resting_hr :=
      if t.hasRHR then
        some (fracMean ((dailyTrailing7 t).map (fun r => r.restingHeartRate)))
      else none
    avg_stress :=
      if t.hasStress then
        some ((fracMean ((dailyTrailing7 t).map (fun r => r.stressDuration))).divInt 60)
      else none }

/-- C4 (amended): the daily aggregation computes mean steps, mean resting
heart rate and mean stress minutes over the trailing 7 records, each
independently omitted when its column is absent; but in the assembled
prompt the section header is glued to the steps bullet (so with steps
absent and resting heart rate present the heart-rate bullet appears with
no header — a partial section), and the stress average is never rendered:
the prompt is unchanged under any replacement of the stress column. -/
theorem daily_metrics_partial_section (data : Store) (today : Int) (b : Bool)
    (v : Int) (t : DailyTable) (d : DailyMetrics) (hr : Frac) :
    (format_data_for_claude (setStressStore data b v) today =
      format_data_for_claude data today) ∧
    (t.rows ≠ [] → gather_daily (some t) = some (expectedDailyMetrics t)) ∧
    (d.avg_steps = none → d.avg_resting_hr = some hr →
      dailyPromptParts d = ["", "- Resting Heart Rate: " ++ fmt0 hr ++ " bpm"]) := by
  refine ⟨?_, ?_, ?_⟩
  · unfold format_data_for_claude
    have hp : promptParts (setStressStore data b v) today =
        promptParts data today :=
      promptParts_congr _ _ _ rfl rfl rfl rfl rfl
        (gather_daily_stress_free data.dailyStats b v)
    rw [hp]
  · intro hne
    have h' : t.rows.isEmpty = false := by
      rw [List.isEmpty_eq_false]
      exact hne
    simp only [gather_daily, h', Bool.false_eq_true, if_false]
    rfl
  · intro h1 h2
    unfold dailyPromptParts
    rw [h1, h2]
    rfl

/-- Witness for C4: a metrics record with steps absent and resting heart
rate 60 renders as a header-less heart-rate bullet. -/
theorem daily_metrics_partial_section_witness :
    dailyPromptParts
      { avg_steps := none, avg_resting_hr := some ⟨60, 1⟩, avg_stress := none } =
      ["", "- Resting Heart Rate: " ++ fmt0 ⟨60, 1⟩ ++ " bpm"] :=
  (daily_metrics_partial_section emptyStore 0 false 0
    { rows := [], hasSteps := false, hasRHR := false, hasStress := false }
    { avg_steps := none, avg_resting_hr := some ⟨60, 1⟩, avg_stress := none }
    ⟨60, 1⟩).2.2 rfl rfl

def cs4store : Store :=
  { activitySummary := none, climbingRoutes := none, boulderProblems := none,
    sleepSummary := none,
    dailyStats := some
      { rows := [{ time := 0, totalSteps := 0, restingHeartRate := 60,
                   stressDuration := 3600 }],
        hasSteps := false, hasRHR := true, hasStress := true },
    trainingReadiness := none, vo2Max := none, vo2_Max := none }

set_option maxRecDepth 16000 in
/-- Counterexample to C4 as stated: with `totalSteps` absent but
`restingHeartRate` and `stressDuration` present, the prompt carries the
heart-rate bullet without the section header (a partially rendered
section), and no stress figure at all. -/
theorem daily_metrics_section_counterexample :
    containsSubstr ((format_data_for_claude cs4store 0).toOption.getD "")
        "- Resting Heart Rate: 60 bpm" = true ∧
    containsSubstr ((format_data_for_claude cs4store 0).toOption.getD "")
        "**Daily Metrics" = false ∧
    containsSubstr ((format_data_for_claude cs4store 0).toOption.getD "")
        "stress" = false ∧
    containsSubstr ((format_data_for_claude cs4store 0).toOption.getD "")
        "Stress" = false :=
  ⟨by decide, by decide, by decide, by decide⟩

/-! ### C8: trailing-N selection under row permutations -/

theorem sortByTime_sorted {α : Type} (time : α → Int) (l : List α) :
    List.Sorted (fun a b => time a ≤ time b) (sortByTime time l) := by
  haveI : IsTotal α (fun a b => time a ≤ time b) := ⟨fun a b => le_total _ _⟩
  haveI : IsTrans α (fun a b => time a ≤ time b) :=
    ⟨fun a b c hab hbc => le_trans hab hbc⟩
  exact List.sorted_insertionSort _ l

theorem sortByTime_perm {α : Type} (time : α → Int) (l : List α) :
    (sortByTime time l).Perm l :=
  List.perm_insertionSort _ l

theorem perm_isEmpty_eq {α : Type} {l l' : List α} (h : l.Perm l') :
    l.isEmpty = l'.isEmpty := by
  cases hl : l.isEmpty with
  | true =>
    rw [List.isEmpty_iff] at hl
    subst hl
    have : l' = [] := h.symm.eq_nil
    rw [this]
    rfl
  | false =>
    rw [List.isEmpty_eq_false] at hl
    have hl' : l' ≠ [] := fun he => hl ((he ▸ h : l.Perm []).eq_nil)
    rw [eq_comm, List.isEmpty_eq_false]
    exact hl'

/-- Sorting by timestamp is insensitive to the input order of the rows as
long as the timestamps are pairwise distinct. -/
theorem sortByTime_eq_of_perm {α : Type} (time : α → Int) {l₁ l₂ : List α}
    (hp : l₁.Perm l₂) (hd : (l₁.map time).Nodup) :
    sortByTime time l₁ = sortByTime time l₂ := by
  haveI : IsAntisymm α (fun a b => time a < time b) :=
    ⟨fun a b h1 h2 => absurd (lt_trans h1 h2) (lt_irrefl _)⟩
  have hperm : (sortByTime time l₁).Perm (sortByTime time l₂) :=
    (sortByTime_perm time l₁).trans (hp.trans (sortByTime_perm time l₂).symm)
  have strict : ∀ (l : List α), (l.map time).Nodup →
      List.Pairwise (fun a b => time a < time b) (sortByTime time l) := by
    intro l hnd
    have hs := sortByTime_sorted time l
    have hmapperm : ((sortByTime time l).map time).Perm (l.map time) :=
      (sortByTime_perm time l).map time
    have hnd' : ((sortByTime time l).map time).Nodup :=
      hmapperm.nodup_iff.mpr hnd
    have hne : List.Pairwise (fun a b => time a ≠ time b) (sortByTime time l) :=
      List.pairwise_map.mp hnd'
    exact (hs.and hne).imp (fun h => lt_of_le_of_ne h.1 h.2)
  have h2 : (l₂.map time).Nodup := (hp.map time).nodup_iff.mp hd
  exact List.eq_of_perm_of_sorted hperm (strict l₁ hd) (strict l₂ h2)

/-- C8 (amended): when timestamps are pairwise distinct, every trailing-N
computation (latest training-readiness record, trailing-7 HRV / sleep /
daily records, trailing-3 aerobic-capacity readings) is invariant under
any row permutation of its input table — in particular it agrees with the
explicitly timestamp-sorted table, which is one such permutation.  With
tied timestamps the selection depends on the input order (see the
counterexample), so the distinctness hypothesis is necessary. -/
theorem trailing_selection_permutation (data : Store)
    (tr tr' : List TRRow) (b1 b2 b3 : Bool)
    (sl sl' : List SleepRow) (c1 c2 c3 : Bool)
    (dl dl' : List DailyRow) (e1 e2 e3 : Bool)
    (vl vl' : List VO2Row) (g1 : Bool)
    (htr : tr.Perm tr') (htrn : (tr.map (fun r : TRRow => r.time)).Nodup)
    (hsl : sl.Perm sl') (hsln : (sl.map (fun r : SleepRow => r.time)).Nodup)
    (hdl : dl.Perm dl') (hdln : (dl.map (fun r : DailyRow => r.time)).Nodup)
    (hvl : vl.Perm vl') (hvln : (vl.map (fun r : VO2Row => r.time)).Nodup) :
    gather_tr (some ⟨tr, b1, b2, b3⟩) = gather_tr (some ⟨tr', b1, b2, b3⟩) ∧
    gather_sleep (some ⟨sl, c1, c2, c3⟩) = gather_sleep (some ⟨sl', c1, c2, c3⟩) ∧
    analyze_hrv { data with sleepSummary := some ⟨sl, c1, c2, c3⟩ } =
      analyze_hrv { data with sleepSummary := some ⟨sl', c1, c2, c3⟩ } ∧
    gather_daily (some ⟨dl, e1, e2, e3⟩) = gather_daily (some ⟨dl', e1, e2, e3⟩) ∧
    gather_vo2 (some ⟨vl, g1⟩) = gather_vo2 (some ⟨vl', g1⟩) := by
  have str := sortByTime_eq_of_perm (fun r : TRRow => r.time) htr htrn
  have ssl := sortByTime_eq_of_perm (fun r : SleepRow => r.time) hsl hsln
  have sdl := sortByTime_eq_of_perm (fun r : DailyRow => r.time) hdl hdln
  have svl := sortByTime_eq_of_perm (fun r : VO2Row => r.time) hvl hvln
  refine ⟨?_, ?_, ?_, ?_, ?_⟩
  · unfold gather_tr
    simp only [perm_isEmpty_eq htr, str]
  · unfold gather_sleep
    simp only [perm_isEmpty_eq hsl, ssl]
  · unfold analyze_hrv
    simp only [perm_isEmpty_eq hsl, ssl]
  · unfold gather_daily
    simp only [perm_isEmpty_eq hdl, sdl]
  · unfold gather_vo2
    simp only [perm_isEmpty_eq hvl, svl]

def trRowA : TRRow := { time := 100, score := 10, level := "LOW", acuteLoad := 5 }

def trRowB : TRRow := { time := 200, score := 20, level := "HIGH", acuteLoad := 7 }

/-- Witness for C8 on a two-row training-readiness table given in the two
possible orders (distinct timestamps). -/
theorem trailing_selection_permutation_witness :
    gather_tr (some ⟨[trRowA, trRowB], true, true, true⟩) =
      gather_tr (some ⟨[trRowB, trRowA], true, true, true⟩) :=
  (trailing_selection_permutation emptyStore
    [trRowA, trRowB] [trRowB, trRowA] true true true
    [] [] true true true [] [] true true true [] [] true
    (by decide) (by decide) (List.Perm.refl []) (by decide)
    (List.Perm.refl []) (by decide) (List.Perm.refl []) (by decide)).1

def trRowTieA : TRRow := { time := 100, score := 10, level := "LOW", acuteLoad := 5 }

def trRowTieB : TRRow := { time := 100, score := 20, level := "HIGH", acuteLoad := 7 }

/-- Counterexample to C8 as stated: with two records sharing one
timestamp, the "latest training readiness" computed on a row permutation
of the table differs from the one computed on the timestamp-sorted
table, so the claimed invariance fails without a distinct-timestamp
assumption. -/
theorem trailing_selection_tie_counterexample :
    gather_tr (some { rows := [trRowTieB, trRowTieA], hasScore := true,
                      hasLevel := true, hasAcute := true }) ≠
      gather_tr (some { rows := sortByTime (fun r => r.time) [trRowTieA, trRowTieB],
                        hasScore := true, hasLevel := true, hasAcute := true }) := by
  decide

/-! ### C5: the weekly narrative -/

theorem lookup_insertGrouped (m : List (Int × List ActInfo)) (d k : Int)
    (a : ActInfo) :
    List.lookup k (insertGrouped m d a) =
      if k = d then some (((List.lookup k m).getD []) ++ [a])
      else List.lookup k m := by
  induction m with
  | nil =>
    by_cases h : k = d
    · subst h
      simp [insertGrouped, List.lookup]
    · have h' : (k == d) = false := by
        simpa using h
      simp [insertGrouped, List.lookup, h', h]
  | cons p rest ih =>
    obtain ⟨k', v⟩ := p
    by_cases h1 : k' = d
    · subst h1
      by_cases h2 : k = k'
      · subst h2
        simp [insertGrouped, List.lookup]
      · have h2' : (k == k') = false := by simpa using h2
        simp [insertGrouped, List.lookup, h2', h2]
    · have h1' : (k' == d) = false := by simpa using h1
      by_cases h2 : k = k'
      · subst h2
        have h3 : ¬(k = d) := h1
        simp [insertGrouped, List.lookup, h1', h3]
      · have h2' : (k == k') = false := by simpa using h2
        simp [insertGrouped, List.lookup, h1', h2', ih]

theorem lookup_groupFold (tbl : ActivityTable) (cr bp : Option DetailTable)
    (l : List ActivityRow) (k : Int) :
    ∀ acc : List (Int × List ActInfo),
      List.lookup k (l.foldl (fun m r =>
          insertGrouped m (dayOf r.time) (mkActInfo tbl cr bp r)) acc) =
        (if (l.filter (fun r => dayOf r.time == k)) = [] then List.lookup k acc
         else some ((List.lookup k acc).getD [] ++
           ((l.filter (fun r => dayOf r.time == k)).map (mkActInfo tbl cr bp)))) := by
  induction l with
  | nil => intro acc; simp
  | cons r rest ih =>
    intro acc
    rw [List.foldl_cons, List.filter_cons]
    by_cases h : dayOf r.time = k
    · have h' : (dayOf r.time == k) = true := by simpa using h
      rw [h']
      simp only [if_true]
      rw [ih (insertGrouped acc (dayOf r.time) (mkActInfo tbl cr bp r))]
      have hacc : List.lookup k (insertGrouped acc (dayOf r.time)
          (mkActInfo tbl cr bp r)) =
          some (((List.lookup k acc).getD []) ++ [mkActInfo tbl cr bp r]) := by
        rw [lookup_insertGrouped, if_pos h.symm]
      by_cases hrest : (rest.filter (fun r => dayOf r.time == k)) = []
      · rw [if_pos hrest, hacc, hrest]
        simp
      · rw [if_neg hrest, hacc]
        have hrest' : ((r :: rest).filter (fun r => dayOf r.time == k)) ≠ [] := by
          rw [List.filter_cons, h']
          simp
        rw [List.filter_cons, h'] at *
        simp [List.append_assoc]
    · have h' : (dayOf r.time == k) = false := by simpa using h
      rw [h']
      simp only [Bool.false_eq_true, if_false]
      rw [ih (insertGrouped acc (dayOf r.time) (mkActInfo tbl cr bp r))]
      have hacc : List.lookup k (insertGrouped acc (dayOf r.time)
          (mkActInfo tbl cr bp r)) = List.lookup k acc := by
        rw [lookup_insertGrouped, if_neg (fun he => h he.symm)]
      rw [hacc]

theorem filter_absorb {α : Type} (p q : α → Bool) (l : List α)
    (h : ∀ a, p a = true → q a = true) :
    (l.filter q).filter p = l.filter p := by
  induction l with
  | nil => rfl
  | cons a t ih =>
    cases hq : q a with
    | true => simp [List.filter_cons, hq, ih]
    | false =>
      have hp : p a = false := by
        cases hpa : p a with
        | true => exact absurd (h a hpa) (by simp [hq])
        | false => rfl
      simp [List.filter_cons, hq, hp, ih]

theorem weekStart_eq (today : Int) :
    weekStart today = (dayOf today - 7) * secPerDay := by
  unfold weekStart normalizeTs dayOf secPerDay
  have h : today - 7 * 86400 = today + (-7) * 86400 := by ring
  rw [h, Int.add_mul_ediv_right _ _ (by norm_num : (86400 : Int) ≠ 0)]
  ring

theorem weekStart_le_iff (today t : Int) :
    weekStart today ≤ t ↔ dayOf today - 7 ≤ dayOf t := by
  rw [weekStart_eq]
  unfold dayOf secPerDay
  exact (Int.le_ediv_iff_mul_le (by norm_num)).symm

/-- The in-window activities of calendar day `d`, in timestamp-sorted
order, as rendered records: exactly the non-sentinel activities whose
date is `d` (an activity of any other date — before the window, on the
reference date, or later — can never contribute to day `d`). -/
def dayActivities (data : Store) (tbl : ActivityTable) (d : Int) : List ActInfo :=
  ((sortByTime (fun r => r.time)
      (tbl.rows.filter (fun r => !(r.activityType == "No Activity")))).filter
    (fun r => dayOf r.time == d)).map
    (mkActInfo tbl data.climbingRoutes data.boulderProblems)

/-- The line the narrator emits for calendar day `d`: its activities
joined by " + ", or the rest-day label when the day has none. -/
def renderedDay (data : Store) (tbl : ActivityTable) (d : Int) : String :=
  if dayActivities data tbl d = [] then
    "* " ++ weekdayAbbrev d ++ " " ++ monthDayStr d ++
      ": REST DAY (no activities recorded)"
  else
    "* " ++ weekdayAbbrev d ++ " " ++ monthDayStr d ++ ": " ++
      String.intercalate " + " ((dayActivities data tbl d).map actStr)

theorem renderDayLine_eq_renderedDay (data : Store) (tbl : ActivityTable)
    (today : Int) (j : Nat) (hj : j < 7) :
    renderDayLine
      (groupByDate tbl data.climbingRoutes data.boulderProblems
        ((sortByTime (fun r => r.time)
          (tbl.rows.filter (fun r => !(r.activityType == "No Activity")))).filter
          (fun r => decide (weekStart today ≤ r.time))))
      (dayOf today - (7 - (j : Int))) =
    renderedDay data tbl (dayOf today - (7 - (j : Int))) := by
  have habs : ∀ r : ActivityRow,
      (dayOf r.time == dayOf today - (7 - (j : Int))) = true →
      decide (weekStart today ≤ r.time) = true := by
    intro r hr
    rw [beq_iff_eq] at hr
    rw [decide_eq_true_iff, weekStart_le_iff, hr]
    omega
  have hfl : ((sortByTime (fun r => r.time)
      (tbl.rows.filter (fun r => !(r.activityType == "No Activity")))).filter
      (fun r => decide (weekStart today ≤ r.time))).filter
      (fun r => dayOf r.time == dayOf today - (7 - (j : Int))) =
      (sortByTime (fun r => r.time)
        (tbl.rows.filter (fun r => !(r.activityType == "No Activity")))).filter
        (fun r => dayOf r.time == dayOf today - (7 - (j : Int))) :=
    filter_absorb _ _ _ habs
  unfold renderDayLine groupByDate
  rw [lookup_groupFold, hfl]
  by_cases hempty : (sortByTime (fun r => r.time)
      (tbl.rows.filter (fun r => !(r.activityType == "No Activity")))).filter
      (fun r => dayOf r.time == dayOf today - (7 - (j : Int))) = []
  · rw [if_pos hempty]
    unfold renderedDay
    have hda : dayActivities data tbl (dayOf today - (7 - (j : Int))) = [] := by
      unfold dayActivities
      rw [hempty]
      rfl
    rw [if_pos hda]
    rfl
  · rw [if_neg hempty]
    unfold renderedDay
    have hda : dayActivities data tbl (dayOf today - (7 - (j : Int))) =
        ((sortByTime (fun r => r.time)
          (tbl.rows.filter (fun r => !(r.activityType == "No Activity")))).filter
          (fun r => dayOf r.time == dayOf today - (7 - (j : Int)))).map
          (mkActInfo tbl data.climbingRoutes data.boulderProblems) := rfl
    have hda' : dayActivities data tbl (dayOf today - (7 - (j : Int))) ≠ [] := by
      rw [hda, Ne, List.map_eq_nil_iff]
      exact hempty
    rw [if_neg hda', hda]
    simp

/-- C5: for a store with non-empty `ActivitySummary` and any reference
timestamp, the narrator emits the header line followed by exactly 7 day
lines, one per calendar day strictly preceding the reference date, in
chronological order oldest to newest; the line of day `d` is determined
by the day-`d` activities alone (`dayActivities`), so activities outside
the trailing 7-day window — including on the reference date itself —
never appear in any line, and a day with no activities is labelled a rest
day.  Confirmed. -/
theorem weekly_narrative_seven_days (data : Store) (tbl : ActivityTable)
    (today : Int) (hs : data.activitySummary = some tbl)
    (hne : tbl.rows ≠ []) :
    analyze_weekly_activities data today =
      String.intercalate "\n"
        ("**Previous Week\x27s Activities:**\n" ::
          (List.range 7).map (fun (j : Nat) =>
            renderedDay data tbl (dayOf today - (7 - (j : Int))))) ∧
    (∀ d : Int, dayActivities data tbl d = [] →
      renderedDay data tbl d =
        "* " ++ weekdayAbbrev d ++ " " ++ monthDayStr d ++
          ": REST DAY (no activities recorded)") := by
  refine ⟨?_, ?_⟩
  · have hne' : tbl.rows.isEmpty = false := by
      rw [List.isEmpty_eq_false]
      exact hne
    unfold analyze_weekly_activities
    rw [hs]
    simp only [hne', Bool.false_eq_true, if_false]
    have hmap : ∀ j ∈ List.range 7,
        renderDayLine
          (groupByDate tbl data.climbingRoutes data.boulderProblems
            ((sortByTime (fun r => r.time)
              (tbl.rows.filter (fun r => !(r.activityType == "No Activity")))).filter
              (fun r => decide (weekStart today ≤ r.time))))
          (dayOf today - (7 - (j : Int))) =
        renderedDay data tbl (dayOf today - (7 - (j : Int))) := by
      intro j hj
      rw [List.mem_range] at hj
      exact renderDayLine_eq_renderedDay data tbl today j hj
    rw [List.map_congr_left hmap]
  · intro d hdnil
    unfold renderedDay
    rw [if_pos hdnil]

def c5tbl : ActivityTable :=
  { rows := [{ activityID := 1, time := (20000 - 3) * 86400 + 3600 * 10,
               activityType := "running", activityName := none,
               movingDuration := some 1800, elapsedDuration := none,
               averageHR := none, maxHR := none }],
    hasName := false, hasMoving := true, hasElapsed := false,
    hasAvgHR := false, hasMaxHR := false }

def c5store : Store :=
  { activitySummary := some c5tbl, climbingRoutes := none,
    boulderProblems := none, sleepSummary := none, dailyStats := none,
    trainingReadiness := none, vo2Max := none, vo2_Max := none }

/-- Witness for C5 on a one-activity store at a fixed reference noon. -/
theorem weekly_narrative_seven_days_witness :
    analyze_weekly_activities c5store (20000 * 86400 + 43200) =
      String.intercalate "\n"
        ("**Previous Week\x27s Activities:**\n" ::
          (List.range 7).map (fun (j : Nat) =>
            renderedDay c5store c5tbl
              (dayOf (20000 * 86400 + 43200) - (7 - (j : Int))))) :=
  (weekly_narrative_seven_days c5store c5tbl (20000 * 86400 + 43200) rfl
    (by decide)).1

/-! ### C10: reconciled zero duration for unmatched climbing sessions -/

/-- C10: an in-window activity of type `indoor_climbing` or `bouldering`
with no matching detail record gets the reconciled duration `some 0`,
renders as `<Type> (0 min)`, and its rendered record ignores the
activity's own `movingDuration`/`elapsedDuration` fields entirely.
Confirmed. -/
theorem unmatched_climbing_rendered_zero (tbl : ActivityTable)
    (cr bp : Option DetailTable) (r : ActivityRow)
    (htype : r.activityType = "indoor_climbing" ∨ r.activityType = "bouldering")
    (hcr : ∀ x ∈ detailRows cr, x.activityID ≠ r.activityID)
    (hbp : ∀ x ∈ detailRows bp, x.activityID ≠ r.activityID) :
    (mkActInfo tbl cr bp r).duration = some 0 ∧
    actStr (mkActInfo tbl cr bp r) = humanizeType r.activityType ++ " (0 min)" ∧
    (∀ m e : Option Int,
      mkActInfo tbl cr bp
        { r with movingDuration := m, elapsedDuration := e } =
        mkActInfo tbl cr bp r) := by
  have hzero : calculate_climbing_duration r.activityID cr bp = 0 :=
    calc_duration_zero_of_no_match r.activityID cr bp hcr hbp
  have hcond : (r.activityType == "indoor_climbing" ||
      r.activityType == "bouldering") = true := by
    rcases htype with h | h <;> simp [h]
  have hdur : (mkActInfo tbl cr bp r).duration = some 0 := by
    unfold mkActInfo
    rw [hcond]
    simp [hzero]
  have hfin : humanizeType r.activityType ++ " (" ++ format_duration (some 0) ++
      "" ++ ")" = humanizeType r.activityType ++ " (0 min)" := by
    rw [String.append_assoc, String.append_assoc, String.append_assoc]
    congr 1
  refine ⟨hdur, ?_, ?_⟩
  · have hmk : (mkActInfo tbl cr bp r).type = r.activityType := by
      unfold mkActInfo
      rfl
    unfold actStr
    rw [hmk, hdur]
    have hnotcardio : (r.activityType == "running" ||
        r.activityType == "cycling" || r.activityType == "indoor_cycling") =
        false := by
      rcases htype with h | h <;> simp [h]
    cases havg : (mkActInfo tbl cr bp r).averageHR with
    | none =>
      cases hmax : (mkActInfo tbl cr bp r).maxHR with
      | none => exact hfin
      | some mx => exact hfin
    | some avg =>
      cases hmax : (mkActInfo tbl cr bp r).maxHR with
      | none => exact hfin
      | some mx =>
        rw [hnotcardio]
        exact hfin
  · intro m e
    unfold mkActInfo
    rw [hcond]
    rfl

def c10row : ActivityRow :=
  { activityID := 9, time := 0, activityType := "indoor_climbing",
    activityName := none, movingDuration := some 7200,
    elapsedDuration := some 9000, averageHR := none, maxHR := none }

def c10tbl : ActivityTable :=
  { rows := [c10row], hasName := false, hasMoving := true,
    hasElapsed := true, hasAvgHR := false, hasMaxHR := false }

/-- Witness for C10: a climbing session with `movingDuration` 7200 set
but no detail rows still renders as `Climbing (0 min)`. -/
theorem unmatched_climbing_rendered_zero_witness :
    actStr (mkActInfo c10tbl none none c10row) =
      humanizeType "indoor_climbing" ++ " (0 min)" :=
  (unmatched_climbing_rendered_zero c10tbl none none c10row (Or.inl rfl)
    (by decide) (by decide)).2.1
